import Mathlib

/-!
Verification of the v4vapp-hive-pricefeed core logic.

The Python source (src/src/v4vapp_hive_pricefeed/pricefeed.py) is shallowly
embedded below.  Float arithmetic is modelled over `ℚ` (so `0.02` is the exact
rational `1/50` and `12 * 3600` seconds is `43200`); Python's `int()`
truncation toward zero is modelled by `pyInt`; Python exceptions are modelled
with `Except`, and a `try/except` wrapper is a total function that pattern
matches on the body's result.  Logging calls are recorded as an explicit list
of log events so that claims about logging are statable.
-/

namespace Pricefeed

/-- Log events emitted by `price_feed_update_needed`:
`infoUnchanged` and `infoNeedsUpdate` are the two `logging.info` lines in the
delta/age branch, `errorProblem` is the `logging.error` line of the
`except Exception` handler. -/
inductive LogMsg
  | infoUnchanged
  | infoNeedsUpdate
  | errorProblem
deriving DecidableEq, Repr

/-- The possible states of the persisted `price_feed.json` file as observed by
`price_feed_update_needed`:
`absent` — `os.path.isfile` is false; `unreadable` — `open`/read raises;
`invalidJson` — `json.load` raises; `notObject` — the parsed value is not a
dict, so `.get` raises `AttributeError`; `object b t` — a JSON object whose
`"base"` / `"timestamp"` fields are `b` / `t` (`none` models a missing or
null field). -/
inductive FileState
  | absent
  | unreadable
  | invalidJson
  | notObject
  | object (base : Option ℚ) (timestamp : Option ℚ)
deriving DecidableEq, Repr

/-- Python `int()` applied to a real number: truncation toward zero. -/
def pyInt (q : ℚ) : ℤ := if 0 ≤ q then ⌊q⌋ else ⌈q⌉

/-- The body of the `try:` block of `price_feed_update_needed` (lines 37-64).
`Except.error ()` models a Python exception escaping the body (division by
zero when `base + prev_base = 0`, or the read/parse failures). -/
def price_feed_update_needed_body (base now : ℚ) (fs : FileState) :
    Except Unit (Bool × List LogMsg) :=
  match fs with
  | .absent => .ok (true, [])
  | .unreadable => .error ()
  | .invalidJson => .error ()
  | .notObject => .error ()
  | .object b t =>
    match b, t with
    | some prev_base, some prev_timestamp =>
      -- `if prev_base and prev_timestamp:` — Python truthiness of floats
      if prev_base ≠ 0 ∧ prev_timestamp ≠ 0 then
        -- `per_diff = abs(base - prev_base) / ((base + prev_base) / 2)`
        if base + prev_base = 0 then
          .error ()  -- ZeroDivisionError
        else
          -- `per_diff = abs(base - prev_base) / ((base + prev_base) / 2)` and
          -- `quote_timediff = timedelta(seconds=int(now - prev_timestamp))`;
          -- the branch tests `abs(per_diff) < 0.02 and
          -- quote_timediff.total_seconds() < 12 * 3600`
          if |(|base - prev_base| / ((base + prev_base) / 2))| < 1/50 ∧
              ((pyInt (now - prev_timestamp) : ℤ) : ℚ) < 43200 then
            .ok (false, [.infoUnchanged])
          else
            .ok (true, [.infoNeedsUpdate])
      else
        .ok (true, [])
    | _, _ => .ok (true, [])

/-- `price_feed_update_needed(base)` (pricefeed.py lines 31-67), with the
current wall clock `now` and the state of `price_feed.json` passed explicitly.
Returns the decision together with the log lines emitted.  The
`except Exception` handler (lines 65-66) catches everything, logs, and falls
through to `return True`. -/
def price_feed_update_needed (base now : ℚ) (fs : FileState) :
    Bool × List LogMsg :=
  match price_feed_update_needed_body base now fs with
  | .ok r => r
  | .error _ => (true, [.errorProblem])

/-- The persisted record written to `price_feed.json` on a successful publish:
`{"base": base, "timestamp": datetime.utcnow().timestamp()}` (lines 102-105). -/
structure FeedRecord where
  base : ℚ
  timestamp : ℚ
deriving DecidableEq, Repr

/-- One element of a Python exception's `args` tuple, abstracted to the two
substring tests the `except` handlers perform on it. -/
structure ExcArg where
  hasMissingAuthority : Bool
  hasBase58Msg : Bool
deriving DecidableEq, Repr

/-- Python truthiness of a list: a list is truthy iff it is nonempty.  This is
what `if [expr for arg in ex.args]:` actually tests — the comprehension's
elements are irrelevant. -/
def pyListTruthy {α : Type} (l : List α) : Bool := !l.isEmpty

/-- The exception classes that can cross `publish_feed`'s `try:` boundary. -/
inductive PyError
  | valueError (args : List ExcArg)      -- includes json.JSONDecodeError
  | assertionError
  | rpcNodeException (args : List ExcArg)
  | connectError                         -- httpx.ConnectError
  | readTimeout                          -- httpx.ReadTimeout
  | timeoutError                         -- builtins.TimeoutError
  | v4vApiError
  | keyError                             -- e.g. rjson["v4vapp"] missing
  | hiveKeyError
deriving DecidableEq, Repr

/-- The body `resp.json()` / field access can yield (lines 79-80):
`invalidJson` — `resp.json()` raises `json.JSONDecodeError` (a `ValueError`)
with the given args; `missingField` — `rjson["v4vapp"]["Hive_HBD"]` raises
`KeyError`; `price b` — a well-formed payload carrying the price `b`. -/
inductive RespBody
  | invalidJson (args : List ExcArg)
  | missingField
  | price (base : ℚ)
deriving DecidableEq, Repr

/-- What `httpx.get` does on this cycle (line 74). -/
inductive FetchOutcome
  | raised (e : PyError)
  | response (status : ℕ) (body : RespBody)
deriving DecidableEq, Repr

/-- What `client.broadcast_sync` does on this cycle (line 98). -/
inductive BroadcastOutcome
  | confirmed
  | raised (e : PyError)
deriving DecidableEq, Repr

/-- The external world of one `publish_feed` call: the fetch outcome, the
broadcast outcome (consulted only if a broadcast is attempted), the state of
`price_feed.json`, and the wall clock. -/
structure Cycle where
  fetch : FetchOutcome
  broadcast : BroadcastOutcome
  fileState : FileState
  now : ℚ
deriving DecidableEq, Repr

/-- The body of `publish_feed`'s `try:` block (lines 73-108).  The `.ok`
payload is the `FeedRecord` written to `price_feed.json` on this call, if
any; `.error` is an exception escaping the body.  A broadcast failure
interrupts the body before the file write (line 102 follows line 98). -/
def publish_feed_body (c : Cycle) : Except PyError (Option FeedRecord) :=
  match c.fetch with
  | .raised e => .error e
  | .response status body =>
    if status = 200 then
      match body with
      | .invalidJson args => .error (.valueError args)
      | .missingField => .error .keyError
      | .price base =>
        if (price_feed_update_needed base c.now c.fileState).1 then
          match c.broadcast with
          | .raised e => .error e
          | .confirmed => .ok (some ⟨base, c.now⟩)
        else
          .ok none
    else
      .error .v4vApiError

/-- `publish_feed` (lines 70-138): the `try:` body wrapped in its `except`
handlers.  `.error e` models the call raising `e` to the scheduler; `.ok w`
models a normal return (the function returns `None`), with `w` the record
written, if any.
Note `if ["Error loading Base58 object" in arg for arg in ex.args]:` and
`if ["Missing Active Authority" in arg for arg in ex.args]:` test the
truthiness of the comprehension list, which is nonempty whenever `ex.args`
is nonempty, regardless of the substring checks. -/
def publish_feed (c : Cycle) : Except PyError (Option FeedRecord) :=
  match publish_feed_body c with
  | .ok w => .ok w
  | .error e =>
    match e with
    | .valueError args =>
      if pyListTruthy (args.map (fun arg => arg.hasBase58Msg)) then
        .error .hiveKeyError           -- line 115
      else
        .error .hiveKeyError           -- line 117 (fall-through also raises)
    | .assertionError => .error .hiveKeyError
    | .rpcNodeException args =>
      if pyListTruthy (args.map (fun arg => arg.hasMissingAuthority)) then
        .error .hiveKeyError           -- line 128
      else
        .ok none                       -- line 129: logged only, normal return
    | .connectError => .error .connectError      -- lines 131-133: re-raised
    | .readTimeout => .error .readTimeout
    | .v4vApiError => .error .v4vApiError
    | .timeoutError => .error .timeoutError
    | e2 => .error e2                  -- lines 135-138: logged, re-raised

/-- The record written by a `publish_feed` call, `none` when the call wrote
nothing (whether it returned or raised). -/
def writtenRecord : Except PyError (Option FeedRecord) → Option FeedRecord
  | .ok w => w
  | .error _ => none

/-- The outcome of one `await publish_feed(...)` as dispatched by the
scheduler's `except` clauses (lines 148-165). -/
inductive CycleOutcome
  | success
  | hiveKeyFailure
  | httpFailure      -- httpx.ConnectError, httpx.ReadTimeout, V4VApiError
  | otherFailure     -- any other exception (e.g. KeyError, TimeoutError)
deriving DecidableEq, Repr

/-- How the scheduler's `except` clauses classify a `publish_feed` result. -/
def classifyOutcome : Except PyError (Option FeedRecord) → CycleOutcome
  | .ok _ => .success
  | .error .hiveKeyError => .hiveKeyFailure
  | .error .connectError => .httpFailure
  | .error .readTimeout => .httpFailure
  | .error .v4vApiError => .httpFailure
  | .error _ => .otherFailure

/-- `failure_stop = 20` (line 145). -/
def failure_stop : ℕ := 20

/-- `sleep_time = 10 + 5 * errors ** 2` (line 156), computed from the value
of `errors` before it is incremented. -/
def sleepFor (errors : ℕ) : ℕ := 10 + 5 * errors ^ 2

/-- One iteration of `keep_publishing_price_feed`'s `while True:` loop
(lines 147-169), given the current `errors` counter and the cycle's outcome.
Returns the new counter, whether the loop breaks (the scheduler's terminal
STOPPED state), and the sleep performed this iteration in seconds, if any.
The `finally:` clause compares `errors` (after any increment) against
`failure_stop - 1`. -/
def loopStep (errors : ℕ) (out : CycleOutcome) : ℕ × Bool × Option ℕ :=
  match out with
  | .success =>
    (0, decide (0 > failure_stop - 1), some (60 * 15))
  | .hiveKeyFailure =>
    (errors + 1, true, none)
  | .httpFailure =>
    (errors + 1, decide (errors + 1 > failure_stop - 1), some (sleepFor errors))
  | .otherFailure =>
    (errors + 1, decide (errors + 1 > failure_stop - 1), none)

/-- `keep_publishing_price_feed` run over a list of successive cycle
outcomes, starting from the given `errors` counter.  Returns whether the loop
stopped, the number of `publish_feed` attempts made, and the sleeps performed
in order.  Once the loop breaks, later outcomes are never attempted. -/
def loopRun (errors : ℕ) : List CycleOutcome → Bool × ℕ × List ℕ
  | [] => (false, 0, [])
  | out :: rest =>
    let (e, stops, sl) := loopStep errors out
    if stops then
      (true, 1, sl.toList)
    else
      let (stopped, n, sleeps) := loopRun e rest
      (stopped, n + 1, sl.toList ++ sleeps)

/-- Concrete cycle: the broadcast raises a `ValueError` whose argument
mentions `Error loading Base58 object` (an invalid signing key). -/
def base58Cycle : Cycle :=
  { fetch := .response 200 (.price (2/5)),
    broadcast := .raised (.valueError [⟨false, true⟩]),
    fileState := .absent, now := 0 }

/-- Concrete cycle: the broadcast raises an `RPCNodeException` whose argument
mentions `Missing Active Authority`. -/
def missingAuthCycle : Cycle :=
  { fetch := .response 200 (.price (2/5)),
    broadcast := .raised (.rpcNodeException [⟨true, false⟩]),
    fileState := .absent, now := 0 }

/-- Concrete cycle: HTTP 200 but the body is not valid JSON, so `resp.json()`
raises `json.JSONDecodeError` (a `ValueError`) with one ordinary message
argument. -/
def malformedBodyCycle : Cycle :=
  { fetch := .response 200 (.invalidJson [⟨false, false⟩]),
    broadcast := .confirmed,
    fileState := .absent, now := 0 }

/-- Concrete cycle: the broadcast raises an `RPCNodeException` whose single
argument is an ordinary transient node error message (it does not mention
`Missing Active Authority`). -/
def rpcTransientCycle : Cycle :=
  { fetch := .response 200 (.price (2/5)),
    broadcast := .raised (.rpcNodeException [⟨false, false⟩]),
    fileState := .absent, now := 0 }

/-- Concrete cycle: the broadcast raises an `RPCNodeException` with an empty
`args` tuple. -/
def rpcEmptyArgsCycle : Cycle :=
  { fetch := .response 200 (.price (2/5)),
    broadcast := .raised (.rpcNodeException []),
    fileState := .absent, now := 0 }

/-!  Helper lemmas.  -/

/-- Python `int()` truncation is exact at the integer threshold 43200:
the truncated age is below 43200 iff the exact age is. -/
theorem pyInt_lt_43200 (q : ℚ) : ((pyInt q : ℤ) : ℚ) < 43200 ↔ q < 43200 := by
  unfold pyInt
  split
  · rw [show ((43200 : ℚ)) = ((43200 : ℤ) : ℚ) by norm_num, Int.cast_lt]
    exact Int.floor_lt
  · rename_i h
    have hq : q < 0 := lt_of_not_le h
    have hc : (⌈q⌉ : ℤ) ≤ 0 := Int.ceil_le.mpr (by exact_mod_cast hq.le)
    constructor
    · intro _
      exact hq.trans (by norm_num)
    · intro _
      calc ((⌈q⌉ : ℤ) : ℚ) ≤ 0 := by exact_mod_cast hc
        _ < 43200 := by norm_num

/-- Evaluation of the decision function on a well-formed prior record with
truthy fields and a nonzero denominator. -/
theorem price_feed_update_needed_eval (base now pb pt : ℚ)
    (htr : pb ≠ 0 ∧ pt ≠ 0) (hsum : base + pb ≠ 0) :
    price_feed_update_needed base now (.object (some pb) (some pt)) =
      if |(|base - pb| / ((base + pb) / 2))| < 1/50 ∧
          ((pyInt (now - pt) : ℤ) : ℚ) < 43200 then
        (false, [.infoUnchanged])
      else
        (true, [.infoNeedsUpdate]) := by
  unfold price_feed_update_needed price_feed_update_needed_body
  dsimp only
  rw [if_pos htr, if_neg hsum]
  by_cases hc : |(|base - pb| / ((base + pb) / 2))| < 1/50 ∧
      ((pyInt (now - pt) : ℤ) : ℚ) < 43200
  · simp only [if_pos hc]
  · simp only [if_neg hc]

/-- A `publish_feed` call writes a record iff its `try:` body does: every
`except` handler either re-raises or returns without writing. -/
theorem writtenRecord_publish_feed (c : Cycle) :
    writtenRecord (publish_feed c) = writtenRecord (publish_feed_body c) := by
  unfold publish_feed
  cases h : publish_feed_body c with
  | ok w => rfl
  | error e =>
    cases e with
    | rpcNodeException args =>
      dsimp only
      by_cases hb : pyListTruthy (args.map (fun arg => arg.hasMissingAuthority)) = true
      · rw [if_pos hb]
        rfl
      · rw [if_neg hb]
        rfl
    | valueError args =>
      dsimp only
      by_cases hb : pyListTruthy (args.map (fun arg => arg.hasBase58Msg)) = true
      · rw [if_pos hb]
        rfl
      · rw [if_neg hb]
        rfl
    | assertionError => rfl
    | connectError => rfl
    | readTimeout => rfl
    | timeoutError => rfl
    | v4vApiError => rfl
    | keyError => rfl
    | hiveKeyError => rfl

/-- The `try:` body of `publish_feed` writes a record only when the broadcast
was attempted and confirmed. -/
theorem writtenRecord_body_confirmed (c : Cycle)
    (h : (writtenRecord (publish_feed_body c)).isSome) :
    c.broadcast = BroadcastOutcome.confirmed := by
  obtain ⟨fetch, broadcast, fs, now⟩ := c
  cases fetch with
  | raised e => simp [publish_feed_body, writtenRecord] at h
  | response status body =>
    by_cases hs : status = 200
    · subst hs
      cases body with
      | invalidJson args => simp [publish_feed_body, writtenRecord] at h
      | missingField => simp [publish_feed_body, writtenRecord] at h
      | price base =>
        by_cases hd : (price_feed_update_needed base now fs).1 = true
        · cases broadcast with
          | confirmed => rfl
          | raised e => simp [publish_feed_body, hd, writtenRecord] at h
        · simp [publish_feed_body, hd, writtenRecord] at h
    · simp [publish_feed_body, hs, writtenRecord] at h

/-!  Claim theorems.  -/

/-- C1 fails as stated: with a readable prior record of positive base `1/2`
and positive timestamp `1`, current price `-1` (so the sum `-1/2` is nonzero)
and `now = 1` (age `0`), the spec's symmetric relative delta
`|current - prior| / ((current + prior)/2)` is `-6`, so the claimed
right-hand side is false (delta below `0.02`, age below 12 hours), yet the
code returns `true`: line 48 compares `abs(per_diff)`, which is `6`. -/
theorem C1_claim_counterexample :
    ¬ (((Pricefeed.price_feed_update_needed (-1) 1
          (.object (some (1/2)) (some 1))).1 = true) ↔
        (1/50 ≤ |(-1 : ℚ) - 1/2| / (((-1 : ℚ) + 1/2) / 2) ∨
          (43200 : ℚ) ≤ 1 - 1)) := by
  intro hiff
  have h1 : (Pricefeed.price_feed_update_needed (-1) 1
      (.object (some (1/2)) (some 1))).1 = true := by
    rw [Pricefeed.price_feed_update_needed_eval (-1) 1 (1/2) 1
      (by norm_num) (by norm_num)]
    norm_num [abs]
  rcases hiff.mp h1 with h2 | h2 <;> norm_num [abs] at h2

/-- C1 (amended): for a readable prior record with positive base and positive
timestamp and `current + prior.base ≠ 0`, the decision function returns
`true` iff the absolute value of the symmetric relative delta,
`|current - prior.base| / |(current + prior.base)/2|`, is at least `0.02`,
or the elapsed age `now - prior.published_at` is at least 12 hours
(43200 seconds); it returns `false` exactly when both conditions fail. -/
theorem C1_needs_publish_iff (base now prior_base prior_ts : ℚ)
    (hb : 0 < prior_base) (ht : 0 < prior_ts) (hsum : base + prior_base ≠ 0) :
    (Pricefeed.price_feed_update_needed base now
        (.object (some prior_base) (some prior_ts))).1 = true ↔
      (1/50 ≤ |base - prior_base| / |(base + prior_base) / 2| ∨
        43200 ≤ now - prior_ts) := by
  rw [Pricefeed.price_feed_update_needed_eval base now prior_base prior_ts
      ⟨hb.ne', ht.ne'⟩ hsum,
    show |(|base - prior_base| / ((base + prior_base) / 2))| =
        |base - prior_base| / |(base + prior_base) / 2| by
      rw [abs_div, abs_abs]]
  by_cases hc : |base - prior_base| / |(base + prior_base) / 2| < 1/50 ∧
      ((Pricefeed.pyInt (now - prior_ts) : ℤ) : ℚ) < 43200
  · rw [if_pos hc]
    constructor
    · intro hfalse
      exact absurd hfalse (by simp)
    · rintro (hR | hR)
      · exact absurd hc.1 (not_lt.mpr hR)
      · exact absurd ((Pricefeed.pyInt_lt_43200 (now - prior_ts)).mp hc.2)
          (not_lt.mpr hR)
  · rw [if_neg hc]
    simp only [true_iff]
    rcases not_and_or.mp hc with h1 | h1
    · exact Or.inl (not_lt.mp h1)
    · refine Or.inr (not_lt.mp fun hlt => ?_)
      exact h1 ((Pricefeed.pyInt_lt_43200 (now - prior_ts)).mpr hlt)

/-- Witness for C1_needs_publish_iff: scenario B of the spec, prior base
`0.35` published at `t = 1000`, current price `0.36` one hour later; the
delta is about 2.8%, so the function returns `true`. -/
theorem C1_needs_publish_iff_witness :
    (Pricefeed.price_feed_update_needed (36/100) 4600
      (.object (some (35/100)) (some 1000))).1 = true :=
  (C1_needs_publish_iff (36/100) 4600 (35/100) 1000
      (by norm_num) (by norm_num) (by norm_num)).mpr
    (Or.inl (by rw [abs_of_nonneg (by norm_num), abs_of_nonneg (by norm_num)]
                norm_num))

/-- C7 fails as stated on the absent case: when `price_feed.json` does not
exist, line 38's `os.path.isfile` check skips the whole block and the
function returns `True` (line 67) without emitting any log line, so "logs
the problem" does not hold there. -/
theorem C7_claim_counterexample :
    Pricefeed.price_feed_update_needed (2/5) 0 Pricefeed.FileState.absent =
      (true, []) := rfl

/-- C7 (amended): when the persisted prior record is absent, unreadable, or
structurally malformed (not valid JSON, or not an object), the decision
function does not raise and returns `true`; it logs the problem in the
unreadable and malformed cases (an absent file produces no log line). -/
theorem C7_degraded_prior_forces_update (base now : ℚ)
    (fs : Pricefeed.FileState)
    (h : fs = .absent ∨ fs = .unreadable ∨ fs = .invalidJson ∨
      fs = .notObject) :
    (Pricefeed.price_feed_update_needed base now fs).1 = true ∧
      (fs ≠ .absent →
        (Pricefeed.price_feed_update_needed base now fs).2 =
          [.errorProblem]) := by
  rcases h with h | h | h | h <;> subst h <;>
    simp [Pricefeed.price_feed_update_needed,
      Pricefeed.price_feed_update_needed_body]

/-- Witness for C7_degraded_prior_forces_update at the invalid-JSON state. -/
theorem C7_degraded_prior_forces_update_witness :
    (Pricefeed.price_feed_update_needed (2/5) 0
      Pricefeed.FileState.invalidJson).1 = true :=
  (C7_degraded_prior_forces_update (2/5) 0 Pricefeed.FileState.invalidJson
    (Or.inr (Or.inr (Or.inl rfl)))).1

/-- C8: whenever `current_base + prior.base = 0` — in particular when both
are `0` — the decision function returns `true` and no division-by-zero
escapes to the caller.  When `prior.base = 0` the falsy-field check skips the
division entirely; otherwise the `ZeroDivisionError` is caught by the
`except Exception` handler and the function still returns `true`. -/
theorem C8_zero_sum_returns_true (base now prior_base prior_ts : ℚ)
    (hsum : base + prior_base = 0) :
    (Pricefeed.price_feed_update_needed base now
      (.object (some prior_base) (some prior_ts))).1 = true := by
  unfold Pricefeed.price_feed_update_needed
    Pricefeed.price_feed_update_needed_body
  dsimp only
  by_cases htr : prior_base ≠ 0 ∧ prior_ts ≠ 0
  · rw [if_pos htr, if_pos hsum]
  · rw [if_neg htr]

/-- Witness for C8_zero_sum_returns_true: the spec's own edge case
`current_base = prior.base = 0`. -/
theorem C8_zero_sum_returns_true_witness :
    (Pricefeed.price_feed_update_needed 0 5
      (.object (some 0) (some 3))).1 = true :=
  C8_zero_sum_returns_true 0 5 0 3 (by norm_num)

/-- C10: a parsed JSON object whose `base` or `timestamp` field is missing,
null (both modelled by `none`) or `0` is handled by the falsy test on
line 43 exactly like an absent record: the function returns `true` with no
log output and no delta or age computation. -/
theorem C10_falsy_fields_like_absent (base now : ℚ) (b t : Option ℚ)
    (h : b = none ∨ t = none ∨ b = some 0 ∨ t = some 0) :
    Pricefeed.price_feed_update_needed base now (.object b t) =
      Pricefeed.price_feed_update_needed base now .absent := by
  rcases h with h | h | h | h <;> subst h <;>
    first
    | (cases t <;>
        simp [Pricefeed.price_feed_update_needed,
          Pricefeed.price_feed_update_needed_body])
    | (cases b <;>
        simp [Pricefeed.price_feed_update_needed,
          Pricefeed.price_feed_update_needed_body])

/-- Witness for C10_falsy_fields_like_absent: a record whose base is `0`. -/
theorem C10_falsy_fields_like_absent_witness :
    Pricefeed.price_feed_update_needed (2/5) 7
        (.object (some 0) (some 3)) =
      Pricefeed.price_feed_update_needed (2/5) 7 .absent :=
  C10_falsy_fields_like_absent (2/5) 7 (some 0) (some 3)
    (Or.inr (Or.inr (Or.inl rfl)))

/-- C2 is right about the intended design but the code contradicts it:
(i) an HTTP 200 response with a malformed JSON payload makes `resp.json()`
raise `json.JSONDecodeError`, a `ValueError`, and both branches of the
`ValueError` handler raise `HiveKeyError`, so the scheduler breaks (STOPPED)
on that same cycle instead of retrying;
(ii) an `RPCNodeException` whose args do not mention `Missing Active
Authority` is still converted to `HiveKeyError`, because
`["Missing Active Authority" in arg for arg in ex.args]` is truthy for any
nonempty `args`, so the scheduler stops instead of retrying;
(iii) an `RPCNodeException` with empty `args` is merely logged, so
`publish_feed` returns normally and the scheduler resets the error counter
to 0 and sleeps the 15-minute cadence, instead of incrementing the counter. -/
theorem C2_code_bug_evidence :
    (Pricefeed.publish_feed Pricefeed.malformedBodyCycle =
        .error .hiveKeyError ∧
      Pricefeed.loopStep 0 (Pricefeed.classifyOutcome
        (Pricefeed.publish_feed Pricefeed.malformedBodyCycle)) =
        (1, true, none)) ∧
    (Pricefeed.publish_feed Pricefeed.rpcTransientCycle =
        .error .hiveKeyError ∧
      Pricefeed.loopStep 5 (Pricefeed.classifyOutcome
        (Pricefeed.publish_feed Pricefeed.rpcTransientCycle)) =
        (6, true, none)) ∧
    (Pricefeed.publish_feed Pricefeed.rpcEmptyArgsCycle = .ok none ∧
      Pricefeed.loopStep 5 (Pricefeed.classifyOutcome
        (Pricefeed.publish_feed Pricefeed.rpcEmptyArgsCycle)) =
        (0, false, some 900)) :=
  ⟨⟨rfl, rfl⟩, ⟨rfl, rfl⟩, ⟨rfl, rfl⟩⟩

/-- C3 fails as stated: the code computes `sleep_time = 10 + 5 * errors**2`
before incrementing `errors`, so from a zero counter three consecutive
upstream timeouts sleep 10s, 15s and 30s — not 15s, 30s, 55s. -/
theorem C3_claim_counterexample :
    (Pricefeed.loopRun 0
        [.httpFailure, .httpFailure, .httpFailure]).2.2 ≠ [15, 30, 55] := by
  decide

/-- C3 (amended): starting from zero consecutive errors, three consecutive
upstream timeouts leave the loop running after three attempts with sleeps of
10s, 30s and 55s replaced by the actual 10s, 15s, 30s, in that order. -/
theorem C3_backoff_first_three :
    Pricefeed.loopRun 0 [.httpFailure, .httpFailure, .httpFailure] =
      (false, 3, [10, 15, 30]) := by
  decide

/-- C4: from a zero counter, 20 consecutive retryable failures break the
loop with exactly 20 publish attempts even when a 21st outcome is available;
19 failures do not stop it; the counter is reset to 0 exactly by a
successful cycle and is incremented (never reset) by every other outcome. -/
theorem C4_failure_budget :
    ((Pricefeed.loopRun 0
        (List.replicate 21 Pricefeed.CycleOutcome.httpFailure)).1 = true ∧
      (Pricefeed.loopRun 0
        (List.replicate 21 Pricefeed.CycleOutcome.httpFailure)).2.1 = 20 ∧
      (Pricefeed.loopRun 0
        (List.replicate 19 Pricefeed.CycleOutcome.httpFailure)).1 = false) ∧
    (∀ e : ℕ, (Pricefeed.loopStep e Pricefeed.CycleOutcome.success).1 = 0) ∧
    (∀ (e : ℕ) (out : Pricefeed.CycleOutcome),
      out ≠ Pricefeed.CycleOutcome.success →
        (Pricefeed.loopStep e out).1 = e + 1) := by
  refine ⟨⟨by decide, by decide, by decide⟩, fun e => rfl, fun e out h => ?_⟩
  cases out with
  | success => exact absurd rfl h
  | hiveKeyFailure => rfl
  | httpFailure => rfl
  | otherFailure => rfl

/-- Witness for C4_failure_budget: a retryable failure at counter 7
increments it to 8. -/
theorem C4_failure_budget_witness :
    (Pricefeed.loopStep 7 Pricefeed.CycleOutcome.httpFailure).1 = 7 + 1 :=
  C4_failure_budget.2.2 7 Pricefeed.CycleOutcome.httpFailure (by decide)

/-- C5: a credential/authority failure — a broadcast raising a `ValueError`
mentioning `Error loading Base58 object`, or an `RPCNodeException`
mentioning `Missing Active Authority` — is converted to `HiveKeyError`, and
the `except HiveKeyError` clause breaks the loop on that same cycle for
every value of the error counter. -/
theorem C5_credential_failure_stops_immediately (e : ℕ) :
    Pricefeed.loopStep e (Pricefeed.classifyOutcome
        (Pricefeed.publish_feed Pricefeed.base58Cycle)) =
      (e + 1, true, none) ∧
    Pricefeed.loopStep e (Pricefeed.classifyOutcome
        (Pricefeed.publish_feed Pricefeed.missingAuthCycle)) =
      (e + 1, true, none) :=
  ⟨rfl, rfl⟩

/-- Witness for C5_credential_failure_stops_immediately: from a fresh
counter, the invalid-Base58 cycle stops the loop at once. -/
theorem C5_credential_failure_stops_immediately_witness :
    Pricefeed.loopStep 0 (Pricefeed.classifyOutcome
        (Pricefeed.publish_feed Pricefeed.base58Cycle)) =
      (0 + 1, true, none) :=
  (C5_credential_failure_stops_immediately 0).1

/-- C6: in every publish cycle the persisted record is written only when
the ledger broadcast confirmed; if the broadcast raises anything, the call
performs no state write, leaving the previous record untouched. -/
theorem C6_state_write_only_after_broadcast (c : Pricefeed.Cycle) :
    (∀ e : Pricefeed.PyError,
      c.broadcast = Pricefeed.BroadcastOutcome.raised e →
        Pricefeed.writtenRecord (Pricefeed.publish_feed c) = none) ∧
    ((Pricefeed.writtenRecord (Pricefeed.publish_feed c)).isSome →
      c.broadcast = Pricefeed.BroadcastOutcome.confirmed) := by
  constructor
  · intro e hB
    rw [Pricefeed.writtenRecord_publish_feed]
    cases h : Pricefeed.writtenRecord (Pricefeed.publish_feed_body c) with
    | none => rfl
    | some r =>
      have hok := Pricefeed.writtenRecord_body_confirmed c (by rw [h]; rfl)
      rw [hB] at hok
      cases hok
  · intro h
    rw [Pricefeed.writtenRecord_publish_feed] at h
    exact Pricefeed.writtenRecord_body_confirmed c h

/-- Witness for C6_state_write_only_after_broadcast: the transient-RPC cycle
raises during broadcast and writes nothing. -/
theorem C6_state_write_only_after_broadcast_witness :
    Pricefeed.writtenRecord
      (Pricefeed.publish_feed Pricefeed.rpcTransientCycle) = none :=
  (C6_state_write_only_after_broadcast Pricefeed.rpcTransientCycle).1
    (.rpcNodeException [⟨false, false⟩]) rfl

/-- C9: when a retryable failure is handled with the counter holding
`n = 0, 1, 2, 3`, the backoff sleep is `10 + 5 * n² = 10, 15, 30, 55`
seconds, and the backoff is strictly monotonically increasing in the
counter. -/
theorem C9_backoff_schedule :
    ((Pricefeed.loopStep 0 Pricefeed.CycleOutcome.httpFailure).2.2 =
        some 10 ∧
      (Pricefeed.loopStep 1 Pricefeed.CycleOutcome.httpFailure).2.2 =
        some 15 ∧
      (Pricefeed.loopStep 2 Pricefeed.CycleOutcome.httpFailure).2.2 =
        some 30 ∧
      (Pricefeed.loopStep 3 Pricefeed.CycleOutcome.httpFailure).2.2 =
        some 55) ∧
    ∀ m n : ℕ, m < n → Pricefeed.sleepFor m < Pricefeed.sleepFor n := by
  refine ⟨⟨by decide, by decide, by decide, by decide⟩, fun m n h => ?_⟩
  have hp : m ^ 2 < n ^ 2 := Nat.pow_lt_pow_left h (by norm_num)
  unfold Pricefeed.sleepFor
  omega

/-- Witness for C9_backoff_schedule: the backoff after one prior failure is
smaller than after three. -/
theorem C9_backoff_schedule_witness :
    Pricefeed.sleepFor 1 < Pricefeed.sleepFor 3 :=
  C9_backoff_schedule.2 1 3 (by decide)

end Pricefeed
